import Mathlib

/-!
Verification development for the notion-knowledge-distiller MCP server.

The Python source (src/notion_client.py, src/server.py, src/prompts.py) is
shallowly embedded: Notion block dictionaries become the inductive `Block`,
the analysis JSON dictionary becomes the structure `Analysis` (absent keys are
`none`, and `dict.get(k, d)` becomes `Option.getD`), remote HTTP calls become
explicit effect-log entries, and external time (`datetime.now()`) becomes an
explicit string parameter.
-/

/-- A Notion content block, as built by the `build_*_block` static methods of
`NotionClient` (src/notion_client.py lines 639-732).  Each Python dict carried
an `object: block` tag, a `type` tag and the per-type payload; the inductive
keeps exactly the payload. -/
inductive Block where
  | heading (level : Nat) (text : String)
  | paragraph (text : String)
  | bulleted_list_item (text : String)
  | to_do (text : String) (checked : Bool)
  | callout (text : String) (emoji : String)
  | divider
deriving DecidableEq, Repr

/-- `NotionClient.build_heading_block` (default level 2 is always passed
explicitly here). -/
def build_heading_block (text : String) (level : Nat) : Block :=
  Block.heading level text

/-- `NotionClient.build_paragraph_block`. -/
def build_paragraph_block (text : String) : Block :=
  Block.paragraph text

/-- `NotionClient.build_bulleted_list_block`. -/
def build_bulleted_list_block (text : String) : Block :=
  Block.bulleted_list_item text

/-- `NotionClient.build_todo_block`. -/
def build_todo_block (text : String) (checked : Bool) : Block :=
  Block.to_do text checked

/-- `NotionClient.build_divider_block`. -/
def build_divider_block : Block :=
  Block.divider

/-- `NotionClient.build_callout_block`. -/
def build_callout_block (text : String) (emoji : String) : Block :=
  Block.callout text emoji

/-- The analysis JSON object handed to `create_notion_notes` after
`json.loads`.  Every key the source ever reads with `analysis.get(...)` is a
field; `none` models an absent key. -/
structure Analysis where
  title : Option String := none
  summary : Option String := none
  topics : Option (List String) := none
  key_insights : Option (List String) := none
  decisions_made : Option (List String) := none
  action_items : Option (List String) := none
  core_ideas : Option (List String) := none
  interesting_points : Option (List String) := none
  follow_up_questions : Option (List String) := none
  key_concepts : Option (List String) := none
  examples : Option (List String) := none
  takeaways : Option (List String) := none
  main_points : Option (List String) := none
deriving DecidableEq, Repr

/-- `NotionClient._build_project_content` (src/notion_client.py 535-563):
three optional sections, each `if list:` guarded, emitting a level-2 heading,
one bullet (or unchecked to-do for action items) per entry, and a blank
paragraph separator. -/
def _build_project_content (analysis : Analysis) : List Block :=
  (if (analysis.key_insights.getD []).isEmpty then [] else
    build_heading_block "💡 Key Insights" 2 ::
      (analysis.key_insights.getD []).map build_bulleted_list_block ++
        [build_paragraph_block ""]) ++
  (if (analysis.decisions_made.getD []).isEmpty then [] else
    build_heading_block "✅ Decisions Made" 2 ::
      (analysis.decisions_made.getD []).map build_bulleted_list_block ++
        [build_paragraph_block ""]) ++
  (if (analysis.action_items.getD []).isEmpty then [] else
    build_heading_block "📋 Action Items" 2 ::
      (analysis.action_items.getD []).map (fun item => build_todo_block item false) ++
        [build_paragraph_block ""])

/-- `NotionClient._build_brainstorming_content` (src/notion_client.py 565-593). -/
def _build_brainstorming_content (analysis : Analysis) : List Block :=
  (if (analysis.core_ideas.getD []).isEmpty then [] else
    build_heading_block "💭 Core Ideas" 2 ::
      (analysis.core_ideas.getD []).map build_bulleted_list_block ++
        [build_paragraph_block ""]) ++
  (if (analysis.interesting_points.getD []).isEmpty then [] else
    build_heading_block "✨ Interesting Points" 2 ::
      (analysis.interesting_points.getD []).map build_bulleted_list_block ++
        [build_paragraph_block ""]) ++
  (if (analysis.follow_up_questions.getD []).isEmpty then [] else
    build_heading_block "🤔 Follow-up Questions" 2 ::
      (analysis.follow_up_questions.getD []).map build_bulleted_list_block ++
        [build_paragraph_block ""])

/-- `NotionClient._build_learning_content` (src/notion_client.py 595-623). -/
def _build_learning_content (analysis : Analysis) : List Block :=
  (if (analysis.key_concepts.getD []).isEmpty then [] else
    build_heading_block "📚 Key Concepts" 2 ::
      (analysis.key_concepts.getD []).map build_bulleted_list_block ++
        [build_paragraph_block ""]) ++
  (if (analysis.examples.getD []).isEmpty then [] else
    build_heading_block "💡 Examples" 2 ::
      (analysis.examples.getD []).map build_bulleted_list_block ++
        [build_paragraph_block ""]) ++
  (if (analysis.takeaways.getD []).isEmpty then [] else
    build_heading_block "🎯 Key Takeaways" 2 ::
      (analysis.takeaways.getD []).map build_bulleted_list_block ++
        [build_paragraph_block ""])

/-- `NotionClient._build_general_content` (src/notion_client.py 625-637). -/
def _build_general_content (analysis : Analysis) : List Block :=
  (if (analysis.main_points.getD []).isEmpty then [] else
    build_heading_block "📌 Main Points" 2 ::
      (analysis.main_points.getD []).map build_bulleted_list_block ++
        [build_paragraph_block ""])

/-- `NotionClient.build_page_content` (src/notion_client.py 494-533): summary
callout and blank paragraph when the summary string is truthy, topics callout
and blank paragraph when the topics list is truthy, then the per-type section
blocks, defaulting to the general layout for an unrecognized type. -/
def build_page_content (conversation_type : String) (analysis : Analysis) :
    List Block :=
  (if (analysis.summary.getD "").isEmpty then [] else
    [build_callout_block (analysis.summary.getD "") "📝", build_paragraph_block ""]) ++
  (if (analysis.topics.getD []).isEmpty then [] else
    [build_callout_block ("Topics: " ++ String.intercalate ", " (analysis.topics.getD [])) "🏷️",
      build_paragraph_block ""]) ++
  (if conversation_type = "project_problem_solving" then
    _build_project_content analysis
  else if conversation_type = "idea_brainstorming" then
    _build_brainstorming_content analysis
  else if conversation_type = "learning_educational" then
    _build_learning_content analysis
  else if conversation_type = "general_discussion" then
    _build_general_content analysis
  else
    _build_general_content analysis)

/-- `NotionClient.build_update_content` (src/notion_client.py 393-431):
divider, blank paragraph, dated update heading, blank paragraph, then the
per-type section blocks (with NO fallback branch for unrecognized types).
`update_date` stands for `datetime.now().strftime("%B %d, %Y")`; the
`session_number` parameter is accepted and unused, exactly as in the source. -/
def build_update_content (conversation_type : String) (analysis : Analysis)
    (session_number : Nat) (update_date : String) : List Block :=
  build_divider_block ::
  build_paragraph_block "" ::
  build_heading_block ("Update - " ++ update_date) 2 ::
  build_paragraph_block "" ::
  (if conversation_type = "project_problem_solving" then
    _build_project_content analysis
  else if conversation_type = "idea_brainstorming" then
    _build_brainstorming_content analysis
  else if conversation_type = "learning_educational" then
    _build_learning_content analysis
  else if conversation_type = "general_discussion" then
    _build_general_content analysis
  else
    [])

/-- `CONVERSATION_TYPES` of src/prompts.py, projected to its `sections`
lists (the only field the handlers read). -/
def conversation_type_sections (conversation_type : String) : Option (List String) :=
  if conversation_type = "project_problem_solving" then
    some ["key_insights", "decisions_made", "action_items"]
  else if conversation_type = "idea_brainstorming" then
    some ["core_ideas", "interesting_points", "follow_up_questions"]
  else if conversation_type = "learning_educational" then
    some ["key_concepts", "examples", "takeaways"]
  else if conversation_type = "general_discussion" then
    some ["main_points"]
  else
    none

/-- `list(CONVERSATION_TYPES.keys())`, used as `valid_types` in
src/server.py. -/
def valid_types : List String :=
  ["project_problem_solving", "idea_brainstorming", "learning_educational",
    "general_discussion"]

/-- The `type_mapping` dict of `NotionClient.create_database_entry`
(src/notion_client.py 55-60). -/
def type_mapping (conversation_type : String) : Option String :=
  if conversation_type = "project_problem_solving" then some "Project Problem Solving"
  else if conversation_type = "idea_brainstorming" then some "Idea Brainstorming"
  else if conversation_type = "learning_educational" then some "Learning Educational"
  else if conversation_type = "general_discussion" then some "General Discussion"
  else none

/-- Python string truthiness of an optional environment variable: `None` and
the empty string are falsy. -/
def truthy (value : Option String) : Bool :=
  match value with
  | none => false
  | some s => !s.isEmpty

/-- Python `str.capitalize()`: first character uppercased, the rest
lowercased (ASCII suffices for the strings the source feeds it). -/
def pyCapitalize (s : String) : String :=
  match s.toList with
  | [] => ""
  | c :: rest => String.mk (c.toUpper :: rest.map Char.toLower)

/-- Python `str.title()`: an alphabetic character is uppercased when the
previous character is not alphabetic and lowercased otherwise (ASCII suffices
for the four conversation-type names the source feeds it). -/
def pyTitle (s : String) : String :=
  String.mk ((s.toList.foldl
    (fun (acc : List Char × Bool) c =>
      if c.isAlpha then
        ((if acc.2 then c.toLower else c.toUpper) :: acc.1, true)
      else
        (c :: acc.1, false))
    ([], false)).1.reverse)

/-- The embedding of Python `s.replace("_", " ")`: for the one-character
pattern and replacement the source uses, replacement is exactly a character
map. -/
def replace_underscores (s : String) : String :=
  String.mk (s.toList.map (fun c => if c = '_' then ' ' else c))

/-- Python `needle in hay` on strings: `needle` is a contiguous substring of
`hay`. -/
def pyContains (hay needle : String) : Bool :=
  hay.toList.tails.any (fun t => needle.toList.isPrefixOf t)

/-- The configuration read once at startup from the environment
(src/server.py 40-45): `NOTION_API_KEY`, `NOTION_PARENT_PAGE_ID`,
`NOTION_DATABASE_ID`.  `notion_client` exists iff the API key is truthy. -/
structure Config where
  api_key : Option String := none
  parent_page_id : Option String := none
  database_id : Option String := none
deriving DecidableEq, Repr

/-- A tool invocation's result: the single `TextContent` the handler
returns, split by whether the source text is one of its error messages. -/
inductive ToolResult where
  | success (text : String)
  | error (text : String)
deriving DecidableEq, Repr

/-- Whether a result is an error message. -/
def ToolResult.isError : ToolResult → Bool
  | .success _ => false
  | .error _ => true

/-- The parsed `classification` JSON handed to `classify_conversation`
(absent keys are `none`). -/
structure Classification where
  type : Option String := none
  confidence : Option String := none
  reasoning : Option String := none
deriving DecidableEq, Repr

/-- The success text of `classify_conversation` (src/server.py 224-235). -/
def classify_success_text (type_display confidence reasoning : String)
    (sections : List String) : String :=
  "✅ Conversation Classified!\n\n" ++
  "📑 **Type**: " ++ type_display ++ "\n" ++
  "🎯 **Confidence**: " ++ confidence ++ "\n" ++
  "💭 **Reasoning**: " ++ reasoning ++ "\n\n" ++
  "This conversation will be structured with sections:\n" ++
  String.intercalate ", " sections ++ "\n\n" ++
  "Ready to create the Notion page with this structure!"

/-- The `classify_conversation` branch of `call_tool` (src/server.py
204-250).  `none` stands for a `classification` string `json.loads`
rejects. -/
def classify_conversation (classification : Option Classification) : ToolResult :=
  match classification with
  | none => ToolResult.error "❌ Error: Failed to parse classification JSON."
  | some c =>
    let conv_type := c.type.getD "general_discussion"
    let confidence := c.confidence.getD "medium"
    let reasoning := c.reasoning.getD "No reasoning provided"
    let conv_type := if valid_types.contains conv_type then conv_type
      else "general_discussion"
    let sections := (conversation_type_sections conv_type).getD []
    let type_display := pyTitle (replace_underscores conv_type)
    ToolResult.success (classify_success_text type_display confidence reasoning sections)

/-- One page object of a database query response, reduced to the property
payloads `format_search_results` actually reads (src/notion_client.py
230-251): the title rich-text contents, the `Type`/`Status` select names, the
`Date` start, the `Topics` multi-select names. -/
structure RawPage where
  id : String := ""
  url : String := ""
  title_texts : List String := []
  type_select : Option String := none
  date_start : Option String := none
  topics_multi : List String := []
  status_select : Option String := none
deriving DecidableEq, Repr

/-- One entry of `NotionClient.format_search_results`' output
(src/notion_client.py 253-261). -/
structure FormattedResult where
  id : String
  title : String
  type : String
  date : String
  topics : String
  status : String
  url : String
deriving DecidableEq, Repr

/-- `NotionClient.format_search_results` (src/notion_client.py 218-263). -/
def format_search_results (query_results : List RawPage) : List FormattedResult :=
  query_results.map (fun page =>
    { id := page.id
      title := match page.title_texts with
        | [] => "Untitled"
        | t :: _ => t
      type := page.type_select.getD "Unknown"
      date := page.date_start.getD "Unknown"
      topics := if page.topics_multi.isEmpty then "None"
        else String.intercalate ", " page.topics_multi
      status := page.status_select.getD "Unknown"
      url := page.url })

/-- The equality filter object built by `search_notes` (src/server.py
408-414): `property` and the select `equals` value. -/
structure FilterCond where
  property : String
  select_equals : String
deriving DecidableEq, Repr

/-- One sort object: `property` and `direction`. -/
structure SortSpec where
  property : String
  direction : String
deriving DecidableEq, Repr

/-- The query request `NotionClient.query_database` posts to the remote store
(src/notion_client.py 123-159): the effect-log record of one
`POST /databases/id/query`. -/
structure QueryCall where
  database_id : String
  filter : Option FilterCond
  sorts : List SortSpec
  page_size : Int
deriving DecidableEq, Repr

/-- `NotionClient.query_database`'s request construction: the page size is
clamped to the remote maximum 100 (src/notion_client.py 145-147). -/
def query_database (database_id : String) (filter_conditions : Option FilterCond)
    (sorts : List SortSpec) (page_size : Int) : QueryCall :=
  { database_id := database_id
    filter := filter_conditions
    sorts := sorts
    page_size := min page_size 100 }

/-- The local post-filter of `search_notes` (src/server.py 427-435): with a
truthy query, keep the results whose lowercased title or topics string
contains the lowercased query. -/
def local_filter (query : String) (formatted_results : List FormattedResult) :
    List FormattedResult :=
  if query.isEmpty then formatted_results
  else formatted_results.filter (fun r =>
    pyContains r.title.toLower query.toLower || pyContains r.topics.toLower query.toLower)

/-- The result listing text of `search_notes` (src/server.py 446-463). -/
def search_result_text (query : String) (conversation_type : Option String)
    (filtered_results : List FormattedResult) : String :=
  "🔍 Found " ++ toString filtered_results.length ++ " note(s)" ++
  (if query.isEmpty then "" else " matching '" ++ query ++ "'") ++
  (match conversation_type with
    | some t => if t.isEmpty then "" else " (Type: " ++ t ++ ")"
    | none => "") ++
  ":\n\n" ++
  String.join ((filtered_results.enum).map (fun p =>
    toString (p.1 + 1) ++ ". **" ++ p.2.title ++ "**\n" ++
    "   - Type: " ++ p.2.type ++ "\n" ++
    "   - Date: " ++ p.2.date ++ "\n" ++
    "   - Topics: " ++ p.2.topics ++ "\n" ++
    "   - Status: " ++ p.2.status ++ "\n" ++
    "   - ID: `" ++ p.2.id ++ "`\n" ++
    "   - URL: " ++ p.2.url ++ "\n\n")) ++
  "\n💡 Use `read_note` with an ID to see the full content."

/-- The `search_notes` branch of `call_tool` (src/server.py 389-478).
`pages` is the `results` list of the remote response to the one query the
handler issues; the second component is the effect log of remote queries. -/
def search_notes (cfg : Config) (pages : List RawPage) (query : String)
    (conversation_type : Option String) (limit : Int) :
    ToolResult × List QueryCall :=
  if !truthy cfg.api_key || !truthy cfg.database_id then
    (ToolResult.error
      "❌ Error: Database not configured. Search is only available with Notion database setup.",
      [])
  else
    let limit := min limit 20
    let filter_conditions : Option FilterCond :=
      match conversation_type with
      | some t => if t.isEmpty then none else some ⟨"Type", t⟩
      | none => none
    let call := query_database (cfg.database_id.getD "") filter_conditions
      [⟨"Date", "descending"⟩] limit
    let formatted_results := format_search_results pages
    let filtered_results := local_filter query formatted_results
    if filtered_results.isEmpty then
      (ToolResult.success ("🔍 No notes found matching '" ++ query ++ "'" ++
        (match conversation_type with
          | some t => if t.isEmpty then "" else " with type '" ++ t ++ "'"
          | none => "")), [call])
    else
      (ToolResult.success (search_result_text query conversation_type filtered_results),
        [call])

/-- One fetched child block of a stored page, reduced to what
`format_page_content` reads (src/notion_client.py 287-318): the `type` tag,
the `plain_text` pieces of the per-type `rich_text` array, and the `checked`
flag (defaulting to false, as `block.get(...).get("checked", False)` does). -/
structure FetchedBlock where
  type : String
  rich_text : List String := []
  checked : Bool := false
deriving DecidableEq, Repr

/-- `NotionClient._extract_text_from_block` (src/notion_client.py 322-325). -/
def _extract_text_from_block (block : FetchedBlock) : String :=
  String.join block.rich_text

/-- What `get_page_content` returns (src/notion_client.py 170-216): the page
title rich-text contents and the ordered child blocks. -/
structure PageData where
  title_texts : List String := []
  blocks : List FetchedBlock := []
deriving DecidableEq, Repr

/-- The entries one iteration of `format_page_content`'s block loop appends
to `content_lines` (src/notion_client.py 287-318): zero entries for an empty
paragraph or an unhandled type, one entry otherwise. -/
def render_lines (block : FetchedBlock) : List String :=
  if block.type = "heading_2" then
    ["\n## " ++ _extract_text_from_block block ++ "\n"]
  else if block.type = "heading_3" then
    ["\n### " ++ _extract_text_from_block block ++ "\n"]
  else if block.type = "paragraph" then
    (if (_extract_text_from_block block).isEmpty then []
      else [_extract_text_from_block block ++ "\n"])
  else if block.type = "bulleted_list_item" then
    ["- " ++ _extract_text_from_block block]
  else if block.type = "to_do" then
    [(if block.checked then "[x]" else "[ ]") ++ " " ++ _extract_text_from_block block]
  else if block.type = "callout" then
    ["> " ++ _extract_text_from_block block ++ "\n"]
  else if block.type = "divider" then
    ["---\n"]
  else
    []

/-- The title extraction shared by `format_page_content` and
`format_search_results`: first title rich-text content, else "Untitled". -/
def extract_title (title_texts : List String) : String :=
  match title_texts with
  | [] => "Untitled"
  | t :: _ => t

/-- `NotionClient.format_page_content` (src/notion_client.py 265-320): start
`content_lines` with the title heading line, run the block loop appending
each block's entries, and join with newlines. -/
def format_page_content (page_data : PageData) : String :=
  String.intercalate "\n"
    (page_data.blocks.foldl (fun content_lines block => content_lines ++ render_lines block)
      ["# " ++ extract_title page_data.title_texts ++ "\n"])

/-- The effect log of `read_note`: the one `get_page_content` fetch it
issues. -/
inductive FetchCall where
  | getPageContent (page_id : String)
deriving DecidableEq, Repr

/-- The `read_note` branch of `call_tool` (src/server.py 480-519).
`page_data` is the remote response to the one fetch the handler issues; note
the guard checks only `notion_client` (the API key), not the database id. -/
def read_note (cfg : Config) (page_data : PageData) (note_id : String) :
    ToolResult × List FetchCall :=
  if !truthy cfg.api_key then
    (ToolResult.error "❌ Error: Notion client not configured.", [])
  else if note_id.isEmpty then
    (ToolResult.error "❌ Error: note_id is required. Use search_notes to find note IDs.",
      [])
  else
    (ToolResult.success ("📄 **Note Content:**\n\n" ++ format_page_content page_data),
      [FetchCall.getPageContent note_id])

/-- The database entry payload `NotionClient.create_database_entry` posts
(src/notion_client.py 28-121): parent database, the six properties, and the
content blocks as children.  `now_iso` stands for
`datetime.now().isoformat()`. -/
structure EntryData where
  parent_database_id : String
  title : String
  type_name : String
  date_start : String
  topics : List String
  status : String
  confidence_name : String
  children : List Block
deriving DecidableEq, Repr

/-- `NotionClient.create_database_entry`'s request construction: the `Type`
select falls back to "General Discussion" for an unmapped type, `Status` is
"New", `Confidence` is the capitalized confidence. -/
def create_database_entry (database_id title conversation_type : String)
    (topics : List String) (confidence : String) (content_blocks : List Block)
    (now_iso : String) : EntryData :=
  { parent_database_id := database_id
    title := title
    type_name := (type_mapping conversation_type).getD "General Discussion"
    date_start := now_iso
    topics := topics
    status := "New"
    confidence_name := pyCapitalize confidence
    children := content_blocks }

/-- The parent location `NotionClient.create_page` uses (src/notion_client.py
453-459): a page id when one is passed, else the workspace root. -/
inductive ParentLoc where
  | pageId (id : String)
  | workspace
deriving DecidableEq, Repr

/-- The page payload `NotionClient.create_page` posts (src/notion_client.py
433-492). -/
structure PagePayload where
  parent : ParentLoc
  title : String
  children : List Block
deriving DecidableEq, Repr

/-- `NotionClient.create_page`'s request construction. -/
def create_page (title : String) (content_blocks : List Block)
    (parent_page_id : Option String) : PagePayload :=
  { parent := match parent_page_id with
      | some pid => if pid.isEmpty then ParentLoc.workspace else ParentLoc.pageId pid
      | none => ParentLoc.workspace
    title := title
    children := content_blocks }

/-- One remote create the `create_notion_notes` handler performs: either a
database entry or a freestanding page. -/
inductive PersistCall where
  | databaseEntry (entry : EntryData)
  | page (payload : PagePayload)
deriving DecidableEq, Repr

/-- The title a persistence call carries. -/
def PersistCall.titleOf : PersistCall → String
  | .databaseEntry e => e.title
  | .page p => p.title

/-- The content blocks a persistence call carries. -/
def PersistCall.blocksOf : PersistCall → List Block
  | .databaseEntry e => e.children
  | .page p => p.children

/-- The page/entry data the remote store returns on create (the fields the
success text reads: `url` and `id`). -/
structure PageResult where
  url : String := ""
  id : String := ""
deriving DecidableEq, Repr

/-- The per-type section-count text of `create_notion_notes` (src/server.py
327-358). -/
def sections_text (conversation_type : String) (analysis : Analysis) : String :=
  if conversation_type = "project_problem_solving" then
    "- " ++ toString (analysis.key_insights.getD []).length ++ " key insights\n" ++
    "- " ++ toString (analysis.decisions_made.getD []).length ++ " decisions\n" ++
    "- " ++ toString (analysis.action_items.getD []).length ++ " action items"
  else if conversation_type = "idea_brainstorming" then
    "- " ++ toString (analysis.core_ideas.getD []).length ++ " core ideas\n" ++
    "- " ++ toString (analysis.interesting_points.getD []).length ++ " interesting points\n" ++
    "- " ++ toString (analysis.follow_up_questions.getD []).length ++ " follow-up questions"
  else if conversation_type = "learning_educational" then
    "- " ++ toString (analysis.key_concepts.getD []).length ++ " key concepts\n" ++
    "- " ++ toString (analysis.examples.getD []).length ++ " examples\n" ++
    "- " ++ toString (analysis.takeaways.getD []).length ++ " takeaways"
  else
    "- " ++ toString (analysis.main_points.getD []).length ++ " main points"

/-- The success text of `create_notion_notes` (src/server.py 360-372). -/
def create_success_text (storage_type title type_name : String)
    (use_database : Bool) (page_url page_id sections : String) : String :=
  "✅ Successfully created Notion " ++ storage_type ++ "!\n\n" ++
  "📄 **Title**: " ++ title ++ "\n" ++
  "📑 **Type**: " ++ type_name ++ "\n" ++
  "🗄️ **Storage**: " ++ (if use_database then "Database" else "Page") ++ "\n" ++
  "🔗 **URL**: " ++ page_url ++ "\n" ++
  "🆔 **ID**: " ++ page_id ++ "\n\n" ++
  "The " ++ storage_type ++ " includes:\n" ++ sections

/-- The `create_notion_notes` branch of `call_tool` (src/server.py 252-387):
configuration guards, strict conversation-type validation, JSON parse
(`none` models a parse failure — note the type check precedes the parse in
the source), block compilation, then exactly one remote create whose request
is the effect log's single entry.  `remote` is the remote store's response
and `now_iso` the creation instant. -/
def create_notion_notes (cfg : Config) (remote : PageResult) (now_iso : String)
    (conversation_type : String) (analysis : Option Analysis) :
    ToolResult × List PersistCall :=
  if !truthy cfg.api_key then
    (ToolResult.error
      "❌ Error: Notion API key not configured. Please set NOTION_API_KEY in your .env file.",
      [])
  else
    let use_database := truthy cfg.database_id
    if !use_database && !truthy cfg.parent_page_id then
      (ToolResult.error
        ("❌ Error: Neither database ID nor parent page ID configured.\n" ++
          "Please set either NOTION_DATABASE_ID (recommended) or NOTION_PARENT_PAGE_ID in your .env file."),
        [])
    else if !(valid_types.contains conversation_type) then
      (ToolResult.error
        ("❌ Error: Invalid conversation type '" ++ conversation_type ++
          "'. Must be one of: " ++ String.intercalate ", " valid_types),
        [])
    else
      match analysis with
      | none =>
        (ToolResult.error
          "❌ Error: Failed to parse analysis JSON. Please ensure the analysis is valid JSON.",
          [])
      | some analysis =>
        let title := analysis.title.getD "Conversation Notes"
        let topics := analysis.topics.getD []
        let confidence := "medium"
        let content_blocks := build_page_content conversation_type analysis
        let type_name := pyTitle (replace_underscores conversation_type)
        if use_database then
          let entry := create_database_entry (cfg.database_id.getD "") title
            conversation_type topics confidence content_blocks now_iso
          (ToolResult.success
            (create_success_text "database entry" title type_name true remote.url remote.id
              (sections_text conversation_type analysis)),
            [PersistCall.databaseEntry entry])
        else
          (ToolResult.success
            (create_success_text "page" title type_name false remote.url remote.id
              (sections_text conversation_type analysis)),
            [PersistCall.page (create_page title content_blocks cfg.parent_page_id)])

/-! ## Measurements over block sequences -/

/-- The texts of the heading blocks of a sequence, in order. -/
def heading_texts (blocks : List Block) : List String :=
  blocks.filterMap (fun b => match b with
    | Block.heading _ t => some t
    | _ => none)

/-- The number of to-do blocks of a sequence. -/
def count_todos (blocks : List Block) : Nat :=
  blocks.countP (fun b => match b with
    | Block.to_do _ _ => true
    | _ => false)

/-- An archetype-specific section block: a heading, bullet or to-do (the
kinds only the per-section step emits, never the summary/topics callouts). -/
def is_section_block : Block → Bool
  | Block.heading _ _ => true
  | Block.bulleted_list_item _ => true
  | Block.to_do _ _ => true
  | _ => false

/-- The analysis with every archetype section field removed (summary, topics
and title kept). -/
def clear_sections (a : Analysis) : Analysis :=
  { a with
    key_insights := none
    decisions_made := none
    action_items := none
    core_ideas := none
    interesting_points := none
    follow_up_questions := none
    key_concepts := none
    examples := none
    takeaways := none
    main_points := none }

/-- The per-archetype section dispatch shared (textually) by
`build_page_content` and `build_update_content`, with the empty sequence for
an unregistered type. -/
def section_blocks_of (conversation_type : String) (analysis : Analysis) :
    List Block :=
  if conversation_type = "project_problem_solving" then
    _build_project_content analysis
  else if conversation_type = "idea_brainstorming" then
    _build_brainstorming_content analysis
  else if conversation_type = "learning_educational" then
    _build_learning_content analysis
  else if conversation_type = "general_discussion" then
    _build_general_content analysis
  else
    []

/-! ## Helper lemmas -/

theorem heading_texts_append (l₁ l₂ : List Block) :
    heading_texts (l₁ ++ l₂) = heading_texts l₁ ++ heading_texts l₂ := by
  simp [heading_texts]

theorem count_todos_append (l₁ l₂ : List Block) :
    count_todos (l₁ ++ l₂) = count_todos l₁ + count_todos l₂ := by
  simp [count_todos, List.countP_append]

theorem heading_texts_map_bullet (l : List String) :
    heading_texts (l.map build_bulleted_list_block) = [] := by
  induction l with
  | nil => rfl
  | cons x xs ih =>
    simp [heading_texts, build_bulleted_list_block, List.filterMap_cons, ih]

theorem heading_texts_map_todo (l : List String) :
    heading_texts (l.map (fun item => build_todo_block item false)) = [] := by
  induction l with
  | nil => rfl
  | cons x xs ih =>
    simp [heading_texts, build_todo_block, List.filterMap_cons, ih]

theorem count_todos_map_bullet (l : List String) :
    count_todos (l.map build_bulleted_list_block) = 0 := by
  induction l with
  | nil => rfl
  | cons x xs ih =>
    simp [count_todos, build_bulleted_list_block, List.countP_cons, ih]

theorem count_todos_map_todo (l : List String) :
    count_todos (l.map (fun item => build_todo_block item false)) = l.length := by
  induction l with
  | nil => rfl
  | cons x xs ih =>
    simp [count_todos, build_todo_block, List.countP_cons, ih]

theorem heading_texts_chunk_bullet (title : String) (l : List String) :
    heading_texts (if l.isEmpty then [] else
      build_heading_block title 2 :: l.map build_bulleted_list_block ++
        [build_paragraph_block ""]) =
    (if l.isEmpty then [] else [title]) := by
  by_cases h : l.isEmpty
  · simp [h, heading_texts]
  · rw [if_neg h, if_neg h,
      show build_heading_block title 2 :: l.map build_bulleted_list_block ++
        [build_paragraph_block ""] =
        [build_heading_block title 2] ++ l.map build_bulleted_list_block ++
          [build_paragraph_block ""] from rfl,
      heading_texts_append, heading_texts_append, heading_texts_map_bullet]
    simp [heading_texts, build_heading_block, build_paragraph_block, List.filterMap_cons]

theorem heading_texts_chunk_todo (title : String) (l : List String) :
    heading_texts (if l.isEmpty then [] else
      build_heading_block title 2 :: l.map (fun item => build_todo_block item false) ++
        [build_paragraph_block ""]) =
    (if l.isEmpty then [] else [title]) := by
  by_cases h : l.isEmpty
  · simp [h, heading_texts]
  · rw [if_neg h, if_neg h,
      show build_heading_block title 2 :: l.map (fun item => build_todo_block item false) ++
        [build_paragraph_block ""] =
        [build_heading_block title 2] ++ l.map (fun item => build_todo_block item false) ++
          [build_paragraph_block ""] from rfl,
      heading_texts_append, heading_texts_append, heading_texts_map_todo]
    simp [heading_texts, build_heading_block, build_paragraph_block, List.filterMap_cons]

theorem count_todos_chunk_bullet (title : String) (l : List String) :
    count_todos (if l.isEmpty then [] else
      build_heading_block title 2 :: l.map build_bulleted_list_block ++
        [build_paragraph_block ""]) = 0 := by
  by_cases h : l.isEmpty
  · simp [h, count_todos]
  · rw [if_neg h,
      show build_heading_block title 2 :: l.map build_bulleted_list_block ++
        [build_paragraph_block ""] =
        [build_heading_block title 2] ++ l.map build_bulleted_list_block ++
          [build_paragraph_block ""] from rfl,
      count_todos_append, count_todos_append, count_todos_map_bullet]
    simp [count_todos, build_heading_block, build_paragraph_block, List.countP_cons]

theorem count_todos_chunk_todo (title : String) (l : List String) :
    count_todos (if l.isEmpty then [] else
      build_heading_block title 2 :: l.map (fun item => build_todo_block item false) ++
        [build_paragraph_block ""]) = l.length := by
  by_cases h : l.isEmpty
  · rw [if_pos h]
    rw [List.isEmpty_iff] at h
    simp [h, count_todos]
  · rw [if_neg h,
      show build_heading_block title 2 :: l.map (fun item => build_todo_block item false) ++
        [build_paragraph_block ""] =
        [build_heading_block title 2] ++ l.map (fun item => build_todo_block item false) ++
          [build_paragraph_block ""] from rfl,
      count_todos_append, count_todos_append, count_todos_map_todo]
    simp [count_todos, build_heading_block, build_paragraph_block, List.countP_cons]

theorem length_chunk_bullet (title : String) (l : List String) :
    (if l.isEmpty then ([] : List Block) else
      build_heading_block title 2 :: l.map build_bulleted_list_block ++
        [build_paragraph_block ""]).length =
    (if l.isEmpty then 0 else l.length + 2) := by
  by_cases h : l.isEmpty <;> simp [h]

theorem length_chunk_todo (title : String) (l : List String) :
    (if l.isEmpty then ([] : List Block) else
      build_heading_block title 2 :: l.map (fun item => build_todo_block item false) ++
        [build_paragraph_block ""]).length =
    (if l.isEmpty then 0 else l.length + 2) := by
  by_cases h : l.isEmpty <;> simp [h]

theorem heading_texts_summary_chunk (a : Analysis) :
    heading_texts (if (a.summary.getD "").isEmpty then [] else
      [build_callout_block (a.summary.getD "") "📝", build_paragraph_block ""]) = [] := by
  by_cases h : (a.summary.getD "").isEmpty <;>
    simp [h, heading_texts, build_callout_block, build_paragraph_block, List.filterMap_cons]

theorem heading_texts_topics_chunk (a : Analysis) :
    heading_texts (if (a.topics.getD []).isEmpty then [] else
      [build_callout_block ("Topics: " ++ String.intercalate ", " (a.topics.getD [])) "🏷️",
        build_paragraph_block ""]) = [] := by
  by_cases h : (a.topics.getD []).isEmpty <;>
    simp [h, heading_texts, build_callout_block, build_paragraph_block, List.filterMap_cons]

theorem bpc_project_headings (a : Analysis) :
    heading_texts (build_page_content "project_problem_solving" a) =
      (if (a.key_insights.getD []).isEmpty then [] else ["💡 Key Insights"]) ++
      (if (a.decisions_made.getD []).isEmpty then [] else ["✅ Decisions Made"]) ++
      (if (a.action_items.getD []).isEmpty then [] else ["📋 Action Items"]) := by
  simp only [build_page_content, _build_project_content, String.reduceEq, reduceIte]
  rw [heading_texts_append, heading_texts_append, heading_texts_append,
    heading_texts_append, heading_texts_summary_chunk, heading_texts_topics_chunk,
    heading_texts_chunk_bullet, heading_texts_chunk_bullet, heading_texts_chunk_todo]
  simp

theorem count_todos_summary_chunk (a : Analysis) :
    count_todos (if (a.summary.getD "").isEmpty then [] else
      [build_callout_block (a.summary.getD "") "📝", build_paragraph_block ""]) = 0 := by
  by_cases h : (a.summary.getD "").isEmpty <;>
    simp [h, count_todos, build_callout_block, build_paragraph_block, List.countP_cons]

theorem count_todos_topics_chunk (a : Analysis) :
    count_todos (if (a.topics.getD []).isEmpty then [] else
      [build_callout_block ("Topics: " ++ String.intercalate ", " (a.topics.getD [])) "🏷️",
        build_paragraph_block ""]) = 0 := by
  by_cases h : (a.topics.getD []).isEmpty <;>
    simp [h, count_todos, build_callout_block, build_paragraph_block, List.countP_cons]

theorem length_summary_chunk (a : Analysis) :
    (if (a.summary.getD "").isEmpty then ([] : List Block) else
      [build_callout_block (a.summary.getD "") "📝", build_paragraph_block ""]).length =
    (if (a.summary.getD "").isEmpty then 0 else 2) := by
  by_cases h : (a.summary.getD "").isEmpty <;> simp [h]

theorem length_topics_chunk (a : Analysis) :
    (if (a.topics.getD []).isEmpty then ([] : List Block) else
      [build_callout_block ("Topics: " ++ String.intercalate ", " (a.topics.getD [])) "🏷️",
        build_paragraph_block ""]).length =
    (if (a.topics.getD []).isEmpty then 0 else 2) := by
  by_cases h : (a.topics.getD []).isEmpty <;> simp [h]

theorem bpc_project_todos (a : Analysis) :
    count_todos (build_page_content "project_problem_solving" a) =
      (a.action_items.getD []).length := by
  simp only [build_page_content, _build_project_content, String.reduceEq, reduceIte]
  rw [count_todos_append, count_todos_append, count_todos_append, count_todos_append,
    count_todos_summary_chunk, count_todos_topics_chunk,
    count_todos_chunk_bullet, count_todos_chunk_bullet, count_todos_chunk_todo]
  omega

theorem bpc_project_length (a : Analysis) :
    (build_page_content "project_problem_solving" a).length =
      (if (a.summary.getD "").isEmpty then 0 else 2) +
      (if (a.topics.getD []).isEmpty then 0 else 2) +
      ((if (a.key_insights.getD []).isEmpty then 0 else (a.key_insights.getD []).length + 2) +
        (if (a.decisions_made.getD []).isEmpty then 0 else (a.decisions_made.getD []).length + 2) +
        (if (a.action_items.getD []).isEmpty then 0 else (a.action_items.getD []).length + 2)) := by
  simp only [build_page_content, _build_project_content, String.reduceEq, reduceIte]
  rw [List.length_append, List.length_append, List.length_append, List.length_append,
    length_summary_chunk, length_topics_chunk,
    length_chunk_bullet, length_chunk_bullet, length_chunk_todo]

theorem bpc_idea_headings (a : Analysis) :
    heading_texts (build_page_content "idea_brainstorming" a) =
      (if (a.core_ideas.getD []).isEmpty then [] else ["💭 Core Ideas"]) ++
      (if (a.interesting_points.getD []).isEmpty then [] else ["✨ Interesting Points"]) ++
      (if (a.follow_up_questions.getD []).isEmpty then [] else ["🤔 Follow-up Questions"]) := by
  simp only [build_page_content, _build_brainstorming_content, String.reduceEq, reduceIte]
  rw [heading_texts_append, heading_texts_append, heading_texts_append, heading_texts_append, heading_texts_summary_chunk, heading_texts_topics_chunk, heading_texts_chunk_bullet, heading_texts_chunk_bullet, heading_texts_chunk_bullet]
  simp

theorem bpc_idea_todos (a : Analysis) :
    count_todos (build_page_content "idea_brainstorming" a) = 0 := by
  simp only [build_page_content, _build_brainstorming_content, String.reduceEq, reduceIte]
  rw [count_todos_append, count_todos_append, count_todos_append, count_todos_append, count_todos_summary_chunk, count_todos_topics_chunk, count_todos_chunk_bullet, count_todos_chunk_bullet, count_todos_chunk_bullet]

theorem bpc_idea_length (a : Analysis) :
    (build_page_content "idea_brainstorming" a).length =
      (if (a.summary.getD "").isEmpty then 0 else 2) +
      (if (a.topics.getD []).isEmpty then 0 else 2) +
      ((if (a.core_ideas.getD []).isEmpty then 0 else (a.core_ideas.getD []).length + 2) +
        (if (a.interesting_points.getD []).isEmpty then 0 else (a.interesting_points.getD []).length + 2) +
        (if (a.follow_up_questions.getD []).isEmpty then 0 else (a.follow_up_questions.getD []).length + 2)) := by
  simp only [build_page_content, _build_brainstorming_content, String.reduceEq, reduceIte]
  rw [List.length_append, List.length_append, List.length_append, List.length_append, length_summary_chunk, length_topics_chunk, length_chunk_bullet, length_chunk_bullet, length_chunk_bullet]

theorem bpc_learning_headings (a : Analysis) :
    heading_texts (build_page_content "learning_educational" a) =
      (if (a.key_concepts.getD []).isEmpty then [] else ["📚 Key Concepts"]) ++
      (if (a.examples.getD []).isEmpty then [] else ["💡 Examples"]) ++
      (if (a.takeaways.getD []).isEmpty then [] else ["🎯 Key Takeaways"]) := by
  simp only [build_page_content, _build_learning_content, String.reduceEq, reduceIte]
  rw [heading_texts_append, heading_texts_append, heading_texts_append, heading_texts_append, heading_texts_summary_chunk, heading_texts_topics_chunk, heading_texts_chunk_bullet, heading_texts_chunk_bullet, heading_texts_chunk_bullet]
  simp

theorem bpc_learning_todos (a : Analysis) :
    count_todos (build_page_content "learning_educational" a) = 0 := by
  simp only [build_page_content, _build_learning_content, String.reduceEq, reduceIte]
  rw [count_todos_append, count_todos_append, count_todos_append, count_todos_append, count_todos_summary_chunk, count_todos_topics_chunk, count_todos_chunk_bullet, count_todos_chunk_bullet, count_todos_chunk_bullet]

theorem bpc_learning_length (a : Analysis) :
    (build_page_content "learning_educational" a).length =
      (if (a.summary.getD "").isEmpty then 0 else 2) +
      (if (a.topics.getD []).isEmpty then 0 else 2) +
      ((if (a.key_concepts.getD []).isEmpty then 0 else (a.key_concepts.getD []).length + 2) +
        (if (a.examples.getD []).isEmpty then 0 else (a.examples.getD []).length + 2) +
        (if (a.takeaways.getD []).isEmpty then 0 else (a.takeaways.getD []).length + 2)) := by
  simp only [build_page_content, _build_learning_content, String.reduceEq, reduceIte]
  rw [List.length_append, List.length_append, List.length_append, List.length_append, length_summary_chunk, length_topics_chunk, length_chunk_bullet, length_chunk_bullet, length_chunk_bullet]

theorem bpc_general_headings (a : Analysis) :
    heading_texts (build_page_content "general_discussion" a) =
      (if (a.main_points.getD []).isEmpty then [] else ["📌 Main Points"]) := by
  simp only [build_page_content, _build_general_content, String.reduceEq, reduceIte]
  rw [heading_texts_append, heading_texts_append, heading_texts_summary_chunk, heading_texts_topics_chunk, heading_texts_chunk_bullet]
  simp

theorem bpc_general_todos (a : Analysis) :
    count_todos (build_page_content "general_discussion" a) = 0 := by
  simp only [build_page_content, _build_general_content, String.reduceEq, reduceIte]
  rw [count_todos_append, count_todos_append, count_todos_summary_chunk, count_todos_topics_chunk, count_todos_chunk_bullet]

theorem bpc_general_length (a : Analysis) :
    (build_page_content "general_discussion" a).length =
      (if (a.summary.getD "").isEmpty then 0 else 2) +
      (if (a.topics.getD []).isEmpty then 0 else 2) +
      ((if (a.main_points.getD []).isEmpty then 0 else (a.main_points.getD []).length + 2)) := by
  simp only [build_page_content, _build_general_content, String.reduceEq, reduceIte]
  rw [List.length_append, List.length_append, length_summary_chunk, length_topics_chunk, length_chunk_bullet]

/-- C1: for every supported archetype and analysis record, `build_page_content`
emits exactly one heading per non-empty section, in the archetype's declared
section order (the heading-text sequence equals the decorated titles of the
non-empty sections); its to-do count equals the length of `action_items` for
`project_problem_solving` and is zero for the other three archetypes; and the
total block count is the summary/topics prefix plus, per section, nothing when
the section's list is empty and `length + 2` otherwise (so an empty section
contributes no blocks at all). -/
theorem build_page_content_section_structure (a : Analysis) :
    (heading_texts (build_page_content "project_problem_solving" a) =
      (if (a.key_insights.getD []).isEmpty then [] else ["💡 Key Insights"]) ++
      (if (a.decisions_made.getD []).isEmpty then [] else ["✅ Decisions Made"]) ++
      (if (a.action_items.getD []).isEmpty then [] else ["📋 Action Items"]) ∧
     count_todos (build_page_content "project_problem_solving" a) =
      (a.action_items.getD []).length ∧
     (build_page_content "project_problem_solving" a).length =
      (if (a.summary.getD "").isEmpty then 0 else 2) +
      (if (a.topics.getD []).isEmpty then 0 else 2) +
      ((if (a.key_insights.getD []).isEmpty then 0 else (a.key_insights.getD []).length + 2) +
        (if (a.decisions_made.getD []).isEmpty then 0 else (a.decisions_made.getD []).length + 2) +
        (if (a.action_items.getD []).isEmpty then 0 else (a.action_items.getD []).length + 2))) ∧
    (heading_texts (build_page_content "idea_brainstorming" a) =
      (if (a.core_ideas.getD []).isEmpty then [] else ["💭 Core Ideas"]) ++
      (if (a.interesting_points.getD []).isEmpty then [] else ["✨ Interesting Points"]) ++
      (if (a.follow_up_questions.getD []).isEmpty then [] else ["🤔 Follow-up Questions"]) ∧
     count_todos (build_page_content "idea_brainstorming" a) = 0 ∧
     (build_page_content "idea_brainstorming" a).length =
      (if (a.summary.getD "").isEmpty then 0 else 2) +
      (if (a.topics.getD []).isEmpty then 0 else 2) +
      ((if (a.core_ideas.getD []).isEmpty then 0 else (a.core_ideas.getD []).length + 2) +
        (if (a.interesting_points.getD []).isEmpty then 0 else (a.interesting_points.getD []).length + 2) +
        (if (a.follow_up_questions.getD []).isEmpty then 0 else (a.follow_up_questions.getD []).length + 2))) ∧
    (heading_texts (build_page_content "learning_educational" a) =
      (if (a.key_concepts.getD []).isEmpty then [] else ["📚 Key Concepts"]) ++
      (if (a.examples.getD []).isEmpty then [] else ["💡 Examples"]) ++
      (if (a.takeaways.getD []).isEmpty then [] else ["🎯 Key Takeaways"]) ∧
     count_todos (build_page_content "learning_educational" a) = 0 ∧
     (build_page_content "learning_educational" a).length =
      (if (a.summary.getD "").isEmpty then 0 else 2) +
      (if (a.topics.getD []).isEmpty then 0 else 2) +
      ((if (a.key_concepts.getD []).isEmpty then 0 else (a.key_concepts.getD []).length + 2) +
        (if (a.examples.getD []).isEmpty then 0 else (a.examples.getD []).length + 2) +
        (if (a.takeaways.getD []).isEmpty then 0 else (a.takeaways.getD []).length + 2))) ∧
    (heading_texts (build_page_content "general_discussion" a) =
      (if (a.main_points.getD []).isEmpty then [] else ["📌 Main Points"]) ∧
     count_todos (build_page_content "general_discussion" a) = 0 ∧
     (build_page_content "general_discussion" a).length =
      (if (a.summary.getD "").isEmpty then 0 else 2) +
      (if (a.topics.getD []).isEmpty then 0 else 2) +
      (if (a.main_points.getD []).isEmpty then 0 else (a.main_points.getD []).length + 2)) := by
  exact ⟨⟨bpc_project_headings a, bpc_project_todos a, bpc_project_length a⟩,
    ⟨bpc_idea_headings a, bpc_idea_todos a, bpc_idea_length a⟩,
    ⟨bpc_learning_headings a, bpc_learning_todos a, bpc_learning_length a⟩,
    ⟨bpc_general_headings a, bpc_general_todos a, bpc_general_length a⟩⟩

/-- C7: compiling with an archetype name outside the four registered ones
takes the fallback branch and produces exactly the `general_discussion`
output (and, being a total function, never fails). -/
theorem build_page_content_unknown_type (conversation_type : String) (a : Analysis)
    (h : conversation_type ∉ valid_types) :
    build_page_content conversation_type a = build_page_content "general_discussion" a := by
  simp only [valid_types, List.mem_cons, List.not_mem_nil, or_false, not_or] at h
  obtain ⟨h1, h2, h3, h4⟩ := h
  simp [build_page_content, h1, h2, h3, h4]

/-- Witness for C7 at the unregistered name "casual_chat". -/
theorem build_page_content_unknown_type_witness :
    build_page_content "casual_chat"
        { summary := some "s", main_points := some ["a"] } =
      build_page_content "general_discussion"
        { summary := some "s", main_points := some ["a"] } :=
  build_page_content_unknown_type "casual_chat"
    { summary := some "s", main_points := some ["a"] } (by decide)

/-- C8: for every registered archetype, `build_update_content` is exactly a
divider, a blank paragraph, the "Update - date" level-2 heading, a blank
paragraph, and then the same per-section dispatch (`section_blocks_of`) that
`build_page_content`'s section step appends after its summary/topics prefix;
and the `session_number` argument never alters the output. -/
theorem build_update_content_structure (conversation_type : String) (a : Analysis)
    (n₁ n₂ : Nat) (d : String) (h : conversation_type ∈ valid_types) :
    build_update_content conversation_type a n₁ d =
      build_divider_block :: build_paragraph_block "" ::
      build_heading_block ("Update - " ++ d) 2 :: build_paragraph_block "" ::
      section_blocks_of conversation_type a ∧
    build_page_content conversation_type a =
      build_page_content conversation_type (clear_sections a) ++
        section_blocks_of conversation_type a ∧
    build_update_content conversation_type a n₁ d =
      build_update_content conversation_type a n₂ d := by
  refine ⟨?_, ?_, rfl⟩
  · simp only [valid_types, List.mem_cons, List.not_mem_nil, or_false] at h
    rcases h with h | h | h | h <;> subst h <;>
      simp [build_update_content, section_blocks_of]
  · simp only [valid_types, List.mem_cons, List.not_mem_nil, or_false] at h
    rcases h with h | h | h | h <;> subst h <;>
      simp [build_page_content, section_blocks_of, clear_sections,
        _build_project_content, _build_brainstorming_content,
        _build_learning_content, _build_general_content]

/-- Witness for C8 at `general_discussion`, session numbers 1 and 2. -/
theorem build_update_content_structure_witness :
    build_update_content "general_discussion" { main_points := some ["a"] } 1 "May 05, 2025" =
      build_divider_block :: build_paragraph_block "" ::
      build_heading_block ("Update - " ++ "May 05, 2025") 2 :: build_paragraph_block "" ::
      section_blocks_of "general_discussion" { main_points := some ["a"] } ∧
    build_page_content "general_discussion" { main_points := some ["a"] } =
      build_page_content "general_discussion" (clear_sections { main_points := some ["a"] }) ++
        section_blocks_of "general_discussion" { main_points := some ["a"] } ∧
    build_update_content "general_discussion" { main_points := some ["a"] } 1 "May 05, 2025" =
      build_update_content "general_discussion" { main_points := some ["a"] } 2 "May 05, 2025" :=
  build_update_content_structure "general_discussion" { main_points := some ["a"] }
    1 2 "May 05, 2025" (by decide)

/-- C4 counterexample: on `general_discussion` with title "T", summary "s",
main points ["a","b"] and topics ["x"], the compiled block sequence does NOT
have length 7 (the summary contributes two blocks on top of the six listed,
giving 8). -/
theorem general_discussion_example_not_seven :
    (build_page_content "general_discussion"
      { title := some "T", summary := some "s",
        main_points := some ["a", "b"], topics := some ["x"] }).length ≠ 7 := by
  decide

/-- C4 (amended): the same input compiles to exactly 8 blocks: summary
callout, blank, topics callout, blank, heading, bullet "a", bullet "b",
blank. -/
theorem general_discussion_example_sequence :
    build_page_content "general_discussion"
      { title := some "T", summary := some "s",
        main_points := some ["a", "b"], topics := some ["x"] } =
      [Block.callout "s" "📝", Block.paragraph "",
        Block.callout "Topics: x" "🏷️", Block.paragraph "",
        Block.heading 2 "📌 Main Points", Block.bulleted_list_item "a",
        Block.bulleted_list_item "b", Block.paragraph ""] := by
  decide

/-- C2: for the same unrecognized conversation type, `classify_conversation`
coerces to `general_discussion` and still answers with the success text
(displaying "General Discussion" and the general sections), while
`create_notion_notes` — on a configured client — answers with the
invalid-type validation error and performs no persistence call. -/
theorem classify_coerces_create_rejects (c : Classification) (t : String)
    (cfg : Config) (remote : PageResult) (now : String) (analysis : Option Analysis)
    (hty : c.type = some t) (hbad : t ∉ valid_types)
    (hapi : truthy cfg.api_key = true)
    (hdest : truthy cfg.database_id = true ∨ truthy cfg.parent_page_id = true) :
    classify_conversation (some c) =
      ToolResult.success (classify_success_text "General Discussion"
        (c.confidence.getD "medium") (c.reasoning.getD "No reasoning provided")
        ["main_points"]) ∧
    (create_notion_notes cfg remote now t analysis).1 =
      ToolResult.error ("❌ Error: Invalid conversation type '" ++ t ++
        "'. Must be one of: " ++ String.intercalate ", " valid_types) ∧
    (create_notion_notes cfg remote now t analysis).2 = [] := by
  refine ⟨?_, ?_, ?_⟩
  · simp [classify_conversation, hty, hbad, conversation_type_sections,
      show pyTitle (replace_underscores "general_discussion") = "General Discussion" from rfl]
  · rcases hdest with h | h <;> simp [create_notion_notes, hapi, h, hbad]
  · rcases hdest with h | h <;> simp [create_notion_notes, hapi, h, hbad]

/-- Witness for C2: classification type "venting" is coerced in display while
`create_notion_notes` rejects it without persisting. -/
theorem classify_coerces_create_rejects_witness :
    classify_conversation (some { type := some "venting" }) =
      ToolResult.success (classify_success_text "General Discussion"
        ((none : Option String).getD "medium") ((none : Option String).getD "No reasoning provided")
        ["main_points"]) ∧
    (create_notion_notes ⟨some "k", none, some "db"⟩ {} "2026-01-01" "venting" none).1 =
      ToolResult.error ("❌ Error: Invalid conversation type '" ++ "venting" ++
        "'. Must be one of: " ++ String.intercalate ", " valid_types) ∧
    (create_notion_notes ⟨some "k", none, some "db"⟩ {} "2026-01-01" "venting" none).2 = [] :=
  classify_coerces_create_rejects { type := some "venting" } "venting"
    ⟨some "k", none, some "db"⟩ {} "2026-01-01" none rfl (by decide) rfl (Or.inl rfl)

/-- C10: on a configured client with a registered type and parseable
analysis, a missing title is no error — the persisted title defaults to
"Conversation Notes" — and any supplied title (of any length) is passed to
persistence unchanged, with the operation succeeding. -/
theorem create_notion_notes_title_handling (cfg : Config) (remote : PageResult)
    (now conversation_type : String) (a : Analysis)
    (hapi : truthy cfg.api_key = true)
    (hdest : truthy cfg.database_id = true ∨ truthy cfg.parent_page_id = true)
    (hct : valid_types.contains conversation_type = true) :
    (create_notion_notes cfg remote now conversation_type (some a)).2.map PersistCall.titleOf =
      [a.title.getD "Conversation Notes"] ∧
    (create_notion_notes cfg remote now conversation_type (some a)).1.isError = false := by
  have hmem : conversation_type ∈ valid_types := by simpa using hct
  cases hdb : truthy cfg.database_id with
  | false =>
    rcases hdest with h | h
    · rw [hdb] at h
      exact absurd h (by simp)
    · simp [create_notion_notes, hapi, h, hdb, hmem, PersistCall.titleOf, create_page,
        ToolResult.isError]
  | true =>
    simp [create_notion_notes, hapi, hdb, hmem, PersistCall.titleOf, create_database_entry,
      ToolResult.isError]

/-- Witness for C10: a 101-character title is persisted unchanged (and with
`title := none` the theorem's conclusion is the "Conversation Notes"
default). -/
theorem create_notion_notes_title_handling_witness :
    (create_notion_notes ⟨some "k", none, some "db"⟩ {} "2026-01-01" "general_discussion"
        (some { title := some (String.mk (List.replicate 101 'a')) })).2.map
        PersistCall.titleOf =
      [(some (String.mk (List.replicate 101 'a'))).getD "Conversation Notes"] ∧
    (create_notion_notes ⟨some "k", none, some "db"⟩ {} "2026-01-01" "general_discussion"
        (some { title := some (String.mk (List.replicate 101 'a')) })).1.isError = false :=
  create_notion_notes_title_handling ⟨some "k", none, some "db"⟩ {} "2026-01-01"
    "general_discussion" { title := some (String.mk (List.replicate 101 'a')) }
    rfl (Or.inl rfl) (by decide)

/-- C9 counterexample: with an API key configured but NO database id,
`read_note` is not disabled — it issues the remote fetch and returns a
success, contradicting the claim that an absent collection id disables
`read_note` with a configuration error and no remote call. -/
theorem read_note_without_database_id_still_fetches :
    (read_note ⟨some "k", none, none⟩ {} "abc123").2 =
      [FetchCall.getPageContent "abc123"] ∧
    (read_note ⟨some "k", none, none⟩ {} "abc123").1.isError = false := by
  constructor
  · rfl
  · rfl

/-- C9 (amended): an absent database id disables `search_notes`
(configuration error, no remote query); `read_note` is disabled only by an
absent API key (with a key it fetches regardless of the database id);
`create_notion_notes` is config-disabled exactly when both destination ids
are absent, and proceeds to exactly one persistence call when a destination
exists (given a registered type and parseable analysis). -/
theorem config_gating (cfg : Config) (pages : List RawPage) (pd : PageData)
    (query note_id : String) (ct : Option String) (limit : Int)
    (remote : PageResult) (now ctype : String) (a : Analysis) :
    (truthy cfg.database_id = false →
      (search_notes cfg pages query ct limit).1.isError = true ∧
      (search_notes cfg pages query ct limit).2 = []) ∧
    (truthy cfg.api_key = false →
      (read_note cfg pd note_id).1.isError = true ∧
      (read_note cfg pd note_id).2 = []) ∧
    (truthy cfg.api_key = true → note_id.isEmpty = false →
      (read_note cfg pd note_id).2 = [FetchCall.getPageContent note_id]) ∧
    (truthy cfg.api_key = true → truthy cfg.database_id = false →
      truthy cfg.parent_page_id = false →
      (create_notion_notes cfg remote now ctype (some a)).1.isError = true ∧
      (create_notion_notes cfg remote now ctype (some a)).2 = []) ∧
    (truthy cfg.api_key = true →
      (truthy cfg.database_id = true ∨ truthy cfg.parent_page_id = true) →
      ctype ∈ valid_types →
      (create_notion_notes cfg remote now ctype (some a)).2.length = 1) := by
  refine ⟨?_, ?_, ?_, ?_, ?_⟩
  · intro hdb
    cases hapi : truthy cfg.api_key <;>
      simp [search_notes, hapi, hdb, ToolResult.isError]
  · intro hapi
    simp [read_note, hapi, ToolResult.isError]
  · intro hapi hid
    simp [read_note, hapi, hid]
  · intro hapi hdb hpp
    simp [create_notion_notes, hapi, hdb, hpp, ToolResult.isError]
  · intro hapi hdest hmem
    cases hdb : truthy cfg.database_id with
    | false =>
      rcases hdest with h | h
      · rw [hdb] at h
        exact absurd h (by simp)
      · simp [create_notion_notes, hapi, h, hdb, hmem]
    | true =>
      simp [create_notion_notes, hapi, hdb, hmem]

/-- C3 counterexample: a validated create (registered type
`general_discussion`, parseable but all-empty analysis) persists an EMPTY
block sequence, contradicting the claimed non-emptiness invariant. -/
theorem create_notion_notes_persists_empty_blocks :
    (create_notion_notes ⟨some "k", none, some "db"⟩ {} "2026-01-01"
        "general_discussion" (some {})).2.map PersistCall.blocksOf = [[]] := by
  rfl

/-- C3 (amended): every validated create hands persistence exactly the
compiled `build_page_content` sequence; that sequence is non-empty and
carries the topics callout ahead of every archetype-specific section block
whenever the analysis's topics list is non-empty (with an all-empty analysis
the sequence — and hence the persisted content — may be empty). -/
theorem create_notion_notes_topics_callout_order (cfg : Config)
    (remote : PageResult) (now conversation_type : String) (a : Analysis)
    (hapi : truthy cfg.api_key = true)
    (hdest : truthy cfg.database_id = true ∨ truthy cfg.parent_page_id = true)
    (hct : conversation_type ∈ valid_types) :
    (create_notion_notes cfg remote now conversation_type (some a)).2.map
      PersistCall.blocksOf = [build_page_content conversation_type a] ∧
    ((a.topics.getD []) ≠ [] →
      build_page_content conversation_type a ≠ [] ∧
      ∃ front tail, build_page_content conversation_type a =
        front ++ build_callout_block
          ("Topics: " ++ String.intercalate ", " (a.topics.getD [])) "🏷️" :: tail ∧
        ∀ b ∈ front, is_section_block b = false) := by
  constructor
  · cases hdb : truthy cfg.database_id with
    | false =>
      rcases hdest with h | h
      · rw [hdb] at h
        exact absurd h (by simp)
      · simp [create_notion_notes, hapi, h, hdb, hct, PersistCall.blocksOf, create_page,
          create_database_entry]
    | true =>
      simp [create_notion_notes, hapi, hdb, hct, PersistCall.blocksOf, create_database_entry]
  · intro htop
    have htop' : (a.topics.getD []).isEmpty = false := by
      simpa [List.isEmpty_iff] using htop
    refine ⟨?_, ?_⟩
    · simp [build_page_content, htop']
    · refine ⟨if (a.summary.getD "").isEmpty then [] else
        [build_callout_block (a.summary.getD "") "📝", build_paragraph_block ""],
        build_paragraph_block "" ::
          (if conversation_type = "project_problem_solving" then
            _build_project_content a
          else if conversation_type = "idea_brainstorming" then
            _build_brainstorming_content a
          else if conversation_type = "learning_educational" then
            _build_learning_content a
          else if conversation_type = "general_discussion" then
            _build_general_content a
          else
            _build_general_content a), ?_, ?_⟩
      · simp [build_page_content, htop']
      · intro b hb
        by_cases hsum : (a.summary.getD "").isEmpty <;>
          simp [hsum] at hb
        rcases hb with hb | hb <;>
          simp [hb, is_section_block, build_callout_block, build_paragraph_block]

/-- Witness for C3 (amended) at a topics-bearing general-discussion
analysis. -/
theorem create_notion_notes_topics_callout_order_witness :
    (create_notion_notes ⟨some "k", none, some "db"⟩ {} "2026-01-01"
        "general_discussion"
        (some { topics := some ["x"], main_points := some ["a"] })).2.map
      PersistCall.blocksOf =
      [build_page_content "general_discussion"
        { topics := some ["x"], main_points := some ["a"] }] ∧
    (((({ topics := some ["x"], main_points := some ["a"] } : Analysis).topics.getD []) ≠ []) →
      build_page_content "general_discussion"
        { topics := some ["x"], main_points := some ["a"] } ≠ [] ∧
      ∃ front tail, build_page_content "general_discussion"
          { topics := some ["x"], main_points := some ["a"] } =
        front ++ build_callout_block
          ("Topics: " ++ String.intercalate ", "
            (({ topics := some ["x"], main_points := some ["a"] } : Analysis).topics.getD []))
          "🏷️" :: tail ∧
        ∀ b ∈ front, is_section_block b = false) :=
  create_notion_notes_topics_callout_order ⟨some "k", none, some "db"⟩ {} "2026-01-01"
    "general_discussion" { topics := some ["x"], main_points := some ["a"] }
    rfl (Or.inl rfl) (by decide)

theorem foldl_append_render_lines (blocks : List FetchedBlock) (init : List String) :
    blocks.foldl (fun content_lines block => content_lines ++ render_lines block) init =
      init ++ blocks.flatMap render_lines := by
  induction blocks generalizing init with
  | nil => simp
  | cons b bs ih => simp [List.foldl_cons, ih, List.flatMap_cons, List.append_assoc]

/-- C6: `read_note`'s rendering (`format_page_content`) is the title as a
level-1 heading line followed, in stored block order with no other
transformation, by the per-kind line entries: `heading_2` a `##` line,
`heading_3` a `###` line, `paragraph` its raw text (omitted entirely when
empty), bullets `- text`, to-dos `[x] text`/`[ ] text` by checked state,
callouts `> text`, dividers a literal `---` line (heading/callout/divider
entries carry the source's surrounding blank-line padding). -/
theorem format_page_content_rendering (cfg : Config) (note_id : String)
    (page_data : PageData) (rich_text : List String) (checked : Bool) :
    (truthy cfg.api_key = true → note_id.isEmpty = false →
      (read_note cfg page_data note_id).1 =
        ToolResult.success ("📄 **Note Content:**\n\n" ++ format_page_content page_data)) ∧
    format_page_content page_data =
      String.intercalate "\n"
        (("# " ++ extract_title page_data.title_texts ++ "\n") ::
          page_data.blocks.flatMap render_lines) ∧
    render_lines ⟨"heading_2", rich_text, checked⟩ =
      ["\n## " ++ String.join rich_text ++ "\n"] ∧
    render_lines ⟨"heading_3", rich_text, checked⟩ =
      ["\n### " ++ String.join rich_text ++ "\n"] ∧
    render_lines ⟨"paragraph", rich_text, checked⟩ =
      (if (String.join rich_text).isEmpty then [] else [String.join rich_text ++ "\n"]) ∧
    render_lines ⟨"bulleted_list_item", rich_text, checked⟩ =
      ["- " ++ String.join rich_text] ∧
    render_lines ⟨"to_do", rich_text, true⟩ = ["[x] " ++ String.join rich_text] ∧
    render_lines ⟨"to_do", rich_text, false⟩ = ["[ ] " ++ String.join rich_text] ∧
    render_lines ⟨"callout", rich_text, checked⟩ =
      ["> " ++ String.join rich_text ++ "\n"] ∧
    render_lines ⟨"divider", rich_text, checked⟩ = ["---\n"] := by
  refine ⟨?_, ?_, rfl, rfl, rfl, rfl, rfl, rfl, rfl, rfl⟩
  · intro hapi hid
    simp [read_note, hapi, hid]
  · rw [format_page_content, foldl_append_render_lines]
    rfl

/-- C5: on a configured structured backend, `search_notes` issues exactly one
remote query — page size the requested limit clamped to at most 20 (then the
gateway's 100 cap), `Date` descending sort, and a `Type` equality filter
exactly when a (truthy) conversation type is supplied; the query string is
then applied purely locally as a case-insensitive substring filter over each
result's title or joined-topics string of the one fetched page; and when
nothing survives the filter the result is the explicit no-notes-found
message, never an error. -/
theorem search_notes_spec (cfg : Config) (pages : List RawPage) (query : String)
    (conversation_type : Option String) (limit : Int) (r : FormattedResult)
    (hapi : truthy cfg.api_key = true) (hdb : truthy cfg.database_id = true) :
    (search_notes cfg pages query conversation_type limit).2 =
      [{ database_id := cfg.database_id.getD ""
         filter := match conversation_type with
           | some t => if t.isEmpty then none else some ⟨"Type", t⟩
           | none => none
         sorts := [⟨"Date", "descending"⟩]
         page_size := min (min limit 20) 100 }] ∧
    (∀ call ∈ (search_notes cfg pages query conversation_type limit).2,
      call.page_size ≤ 20) ∧
    (r ∈ local_filter query (format_search_results pages) ↔
      r ∈ format_search_results pages ∧
        (query.isEmpty = true ∨
          (pyContains r.title.toLower query.toLower ||
            pyContains r.topics.toLower query.toLower) = true)) ∧
    ((local_filter query (format_search_results pages)).isEmpty = true →
      (search_notes cfg pages query conversation_type limit).1 =
        ToolResult.success ("🔍 No notes found matching '" ++ query ++ "'" ++
          (match conversation_type with
            | some t => if t.isEmpty then "" else " with type '" ++ t ++ "'"
            | none => ""))) ∧
    (search_notes cfg pages query conversation_type limit).1.isError = false := by
  have hcall : (search_notes cfg pages query conversation_type limit).2 =
      [{ database_id := cfg.database_id.getD ""
         filter := match conversation_type with
           | some t => if t.isEmpty then none else some ⟨"Type", t⟩
           | none => none
         sorts := [⟨"Date", "descending"⟩]
         page_size := min (min limit 20) 100 }] := by
    by_cases hempty : (local_filter query (format_search_results pages)).isEmpty <;>
      simp [search_notes, query_database, hapi, hdb, hempty]
  refine ⟨hcall, ?_, ?_, ?_, ?_⟩
  · intro call hc
    rw [hcall] at hc
    simp at hc
    subst hc
    simp
  · by_cases hq : query.isEmpty
    · simp [local_filter, hq]
    · simp only [local_filter, hq]
      simp [List.mem_filter, hq]
  · intro hempty
    simp [search_notes, hapi, hdb, hempty]
  · by_cases hempty : (local_filter query (format_search_results pages)).isEmpty <;>
      simp [search_notes, hapi, hdb, hempty, ToolResult.isError]

/-- Witness for C5 at a concrete configuration, query and candidate
result. -/
theorem search_notes_spec_witness :
    (search_notes ⟨some "k", none, some "db"⟩
        [{ id := "1", title_texts := ["Unity notes"] }] "unity"
        (some "General Discussion") 50).2 =
      [{ database_id := "db", filter := some ⟨"Type", "General Discussion"⟩,
         sorts := [⟨"Date", "descending"⟩], page_size := 20 }] ∧
    (∀ call ∈ (search_notes ⟨some "k", none, some "db"⟩
        [{ id := "1", title_texts := ["Unity notes"] }] "unity"
        (some "General Discussion") 50).2, call.page_size ≤ 20) ∧
    (({ id := "1"
        title := "Unity notes"
        type := "Unknown"
        date := "Unknown"
        topics := "None"
        status := "Unknown"
        url := "" } : FormattedResult) ∈
        local_filter "unity"
          (format_search_results [{ id := "1", title_texts := ["Unity notes"] }]) ↔
      ({ id := "1"
         title := "Unity notes"
         type := "Unknown"
         date := "Unknown"
         topics := "None"
         status := "Unknown"
         url := "" } : FormattedResult) ∈
        format_search_results [{ id := "1", title_texts := ["Unity notes"] }] ∧
        (("unity" : String).isEmpty = true ∨
          (pyContains ("Unity notes" : String).toLower ("unity" : String).toLower ||
            pyContains ("None" : String).toLower ("unity" : String).toLower) = true)) ∧
    ((local_filter "unity"
        (format_search_results [{ id := "1", title_texts := ["Unity notes"] }])).isEmpty =
          true →
      (search_notes ⟨some "k", none, some "db"⟩
          [{ id := "1", title_texts := ["Unity notes"] }] "unity"
          (some "General Discussion") 50).1 =
        ToolResult.success ("🔍 No notes found matching '" ++ "unity" ++ "'" ++
          " with type '" ++ "General Discussion" ++ "'")) ∧
    (search_notes ⟨some "k", none, some "db"⟩
        [{ id := "1", title_texts := ["Unity notes"] }] "unity"
        (some "General Discussion") 50).1.isError = false :=
  search_notes_spec ⟨some "k", none, some "db"⟩
    [{ id := "1", title_texts := ["Unity notes"] }] "unity" (some "General Discussion") 50
    { id := "1"
      title := "Unity notes"
      type := "Unknown"
      date := "Unknown"
      topics := "None"
      status := "Unknown"
      url := "" }
    rfl rfl
